import Mathlib

/-
Verification development for the country currency and exchange service
(src/main.py).  The refresh pipeline, its validation, its economic
estimator, its reconciliation against the store, and the read/delete
endpoints are embedded as executable Lean definitions; machine floats
become rationals, timestamps become naturals, and the database session
becomes explicit state passing with the commit as the transaction
boundary.  External fetches and the random multiplier are passed in as
explicit parameters, which is the shallow embedding of network input and
of the documented non-determinism.
-/

set_option autoImplicit false

/-- A raw JSON value in the population slot: either an integer or some
other JSON value (string, float, object, ...), mirroring the dynamic
isinstance check in the validator. -/
inductive PyVal where
  | vint (n : Int)
  | vother
deriving DecidableEq, Repr

/-- One entry of the currencies array of a raw country record; the code
field may be absent. -/
structure CurrencyEntry where
  code : Option String
deriving DecidableEq, Repr

/-- A raw country record as obtained from the countries feed.  Absent
keys are modelled as none; currencies defaults to the empty list, as in
country_data.get with an empty-list default. -/
structure RawCountry where
  name : Option String
  capital : Option String
  region : Option String
  population : Option PyVal
  flag : Option String
  currencies : List CurrencyEntry
deriving DecidableEq, Repr

/-- A persisted row of the countries table.  Floats are embedded as
rationals and the timestamp as a natural number; the autoincrement id
column plays no role in any claim and is omitted. -/
structure Country where
  name : String
  capital : Option String
  region : Option String
  population : Int
  currency_code : Option String
  exchange_rate : Option ℚ
  estimated_gdp : Option ℚ
  flag_url : Option String
  last_refreshed_at : Nat
deriving DecidableEq, Repr

/-- The details slot of an HTTP error payload: either a plain string or
a field-to-message mapping, as the code puts either into details. -/
inductive ErrorDetails where
  | text (s : String)
  | fields (m : List (String × String))
deriving DecidableEq, Repr

/-- An HTTPException payload: status code, error string and optional
details. -/
structure ApiError where
  status_code : Nat
  error : String
  details : Option ErrorDetails
deriving DecidableEq, Repr

/-- The success payload of POST /countries/refresh. -/
structure RefreshOk where
  message : String
  total_countries : Nat
  last_refreshed_at : Nat
deriving DecidableEq, Repr

/-- Outcome of one refresh invocation as seen by the HTTP caller. -/
inductive RefreshResponse where
  | ok (r : RefreshOk)
  | err (e : ApiError)
deriving DecidableEq, Repr

/-- The exchange-rate table: currency code to rate versus the base
currency, an in-memory mapping for one refresh invocation. -/
def RateTable : Type := List (String × ℚ)

/-- Dictionary get on the rate table, mirroring exchange_rates.get. -/
def lookupRate (rates : RateTable) (c : String) : Option ℚ :=
  List.lookup c rates

/-- Outcome of one external HTTP GET, as seen by the fetch helpers: a
payload, a timeout, a non-2xx status, or any other transport error.  The
failure constructors carry the underlying exception detail so that we
can state that it never reaches the produced error payload. -/
inductive FetchResult (α : Type) where
  | ok (data : α)
  | timeout
  | statusError (detail : String)
  | transportError (detail : String)

/-- True exactly on the success constructor. -/
def FetchResult.isOk {α : Type} : FetchResult α → Bool
  | FetchResult.ok _ => true
  | _ => false

/-- The fixed countries feed endpoint. -/
def COUNTRIES_API : String :=
  "https://restcountries.com/v2/all?fields=name,capital,region,population,flag,currencies"

/-- The fixed exchange-rate feed endpoint. -/
def EXCHANGE_API : String :=
  "https://open.er-api.com/v6/latest/USD"

/-- fetch_countries of src/main.py: the payload on success, and on any
of the three failure modes a uniform 503 error naming the RestCountries
source and its URL, with the transport detail discarded. -/
def fetch_countries (r : FetchResult (List RawCountry)) :
    Except ApiError (List RawCountry) :=
  match r with
  | FetchResult.ok d => Except.ok d
  | FetchResult.timeout =>
      Except.error ⟨503, "External data source unavailable",
        some (ErrorDetails.text
          ("Could not fetch data from RestCountries API (" ++ COUNTRIES_API ++ ")"))⟩
  | FetchResult.statusError _ =>
      Except.error ⟨503, "External data source unavailable",
        some (ErrorDetails.text
          ("Could not fetch data from RestCountries API (" ++ COUNTRIES_API ++ ")"))⟩
  | FetchResult.transportError _ =>
      Except.error ⟨503, "External data source unavailable",
        some (ErrorDetails.text
          ("Could not fetch data from RestCountries API (" ++ COUNTRIES_API ++ ")"))⟩

/-- fetch_exchange_rates of src/main.py: the rates mapping on success,
and on any failure a uniform 503 error naming the Exchange Rate source
and its URL, with the transport detail discarded. -/
def fetch_exchange_rates (r : FetchResult RateTable) :
    Except ApiError RateTable :=
  match r with
  | FetchResult.ok d => Except.ok d
  | FetchResult.timeout =>
      Except.error ⟨503, "External data source unavailable",
        some (ErrorDetails.text
          ("Could not fetch data from Exchange Rate API (" ++ EXCHANGE_API ++ ")"))⟩
  | FetchResult.statusError _ =>
      Except.error ⟨503, "External data source unavailable",
        some (ErrorDetails.text
          ("Could not fetch data from Exchange Rate API (" ++ EXCHANGE_API ++ ")"))⟩
  | FetchResult.transportError _ =>
      Except.error ⟨503, "External data source unavailable",
        some (ErrorDetails.text
          ("Could not fetch data from Exchange Rate API (" ++ EXCHANGE_API ++ ")"))⟩

/-- calculate_gdp of src/main.py.  The random multiplier drawn by
random.uniform inside the call is passed in as the explicit parameter u;
a missing or zero rate yields none before any division happens. -/
def calculate_gdp (u : ℚ) (population : Int) (exchange_rate : Option ℚ) : Option ℚ :=
  match exchange_rate with
  | none => none
  | some r => if r = 0 then none else some ((population : ℚ) * u / r)

/-- The code of the first entry of the currencies array, if any,
mirroring the currencies parsing of the refresh loop. -/
def firstCurrencyCode (r : RawCountry) : Option String :=
  match r.currencies with
  | [] => none
  | e :: _ => e.code

/-- The currency code after the falsy check of the refresh loop: a
missing currencies array, a missing code and an empty-string code all
collapse to none, as the branch on "not currency_code" does. -/
def effectiveCode (r : RawCountry) : Option String :=
  match firstCurrencyCode r with
  | none => none
  | some c => if c = "" then none else some c

/-- The three derived fields the refresh loop stores per candidate. -/
structure Estimated where
  currency_code : Option String
  exchange_rate : Option ℚ
  estimated_gdp : Option ℚ
deriving DecidableEq, Repr

/-- The currency-handling block of the refresh loop (lines 256-271 of
src/main.py), taking the effective currency code: no code gives a gdp of
exactly 0 with a null rate; a code found in the table stores the looked
up rate (even a zero rate) and the calculate_gdp result; a code absent
from the table stores null for both rate and gdp while keeping the
code. -/
def estimateFields (u : ℚ) (rates : RateTable) (code : Option String) (p : Int) :
    Estimated :=
  match code with
  | none => ⟨none, none, some 0⟩
  | some c =>
    match lookupRate rates c with
    | some r => ⟨some c, some r, calculate_gdp u p (some r)⟩
    | none => ⟨some c, none, none⟩

/-- Python falsiness of the name slot: absent or the empty string. -/
def pyFalsyName : Option String → Bool
  | none => true
  | some s => s == ""

/-- The field-level population rule of the refresh loop: three distinct
messages for a missing value, a non-integer value and a negative
integer. -/
def populationError : Option PyVal → Option String
  | none => some "is required"
  | some PyVal.vother => some "must be an integer"
  | some (PyVal.vint n) => if n < 0 then some "must be a non-negative integer" else none

/-- The whole-record validation of the refresh loop: every field rule is
evaluated and all violations are collected into one field-to-message
mapping before any failure is raised. -/
def validateRecord (r : RawCountry) : List (String × String) :=
  (if pyFalsyName r.name then [("name", "is required")] else []) ++
  (match populationError r.population with
   | some m => [("population", m)]
   | none => [])

/-- SQL LIKE matching with a step-count fuel so that the definition is
structurally recursive and kernel-evaluable.  The percent wildcard
matches any sequence, the underscore wildcard matches any single
character, and every other character matches case-insensitively, which
is the semantics of the ilike operator the code filters with.  Each
recursive call shrinks the combined length of pattern and string, so any
fuel above that combined length is enough. -/
def likeMatchFuel : Nat → List Char → List Char → Bool
  | 0, _, _ => false
  | _ + 1, [], s => s.isEmpty
  | f + 1, p :: ps, s =>
    if p = '%' then
      likeMatchFuel f ps s ||
        (match s with
         | [] => false
         | _ :: s2 => likeMatchFuel f (p :: ps) s2)
    else
      match s with
      | [] => false
      | c :: s2 => ((p == '_') || (p.toLower == c.toLower)) && likeMatchFuel f ps s2

/-- Country.name.ilike(pat) of the code, applied to one stored name. -/
def likeMatchStr (pat s : String) : Bool :=
  likeMatchFuel (pat.data.length + s.data.length + 1) pat.data s.data

/-- Equality of two names ignoring letter case, the relation the spec
uses for case-insensitive identity of country names. -/
def nameCaseEq (a b : String) : Bool :=
  a.data.map Char.toLower == b.data.map Char.toLower

/-- The update branch of reconciliation (lines 280-287 of src/main.py):
every mutable field of the existing row is overwritten with the
candidate value and the batch timestamp; only the name column is left
as stored. -/
def overwriteFields (capital region : Option String) (p : Int) (est : Estimated)
    (flag : Option String) (t : Nat) (c : Country) : Country :=
  { c with
    capital := capital
    region := region
    population := p
    currency_code := est.currency_code
    exchange_rate := est.exchange_rate
    estimated_gdp := est.estimated_gdp
    flag_url := flag
    last_refreshed_at := t }

/-- Apply f to the first stored row whose name the pattern nm matches
case-insensitively, returning none when no row matches.  This is the
query-filter-first lookup of reconciliation followed by the in-place
update. -/
def updateFirstMatch (nm : String) (f : Country → Country) :
    List Country → Option (List Country)
  | [] => none
  | c :: cs =>
    if likeMatchStr nm c.name then some (f c :: cs)
    else
      match updateFirstMatch nm f cs with
      | none => none
      | some cs2 => some (c :: cs2)

/-- One iteration of the refresh loop on one raw record: validate
(raising 400 with the collected mapping when any rule fails), derive
the economic fields, then update the first ilike match in the session
view of the committed table or stage an insert.  The session state is
the pair of the committed rows (with pending in-place updates) and the
staged inserts, which are invisible to later lookups because the
session never flushes before commit.  The 500 branch is unreachable for
records that pass validation. -/
def refreshStep (rates : RateTable) (t : Nat) (u : ℚ)
    (st : List Country × List Country) (r : RawCountry) :
    Except ApiError (List Country × List Country) :=
  match validateRecord r with
  | e :: es =>
      Except.error ⟨400, "Validation failed", some (ErrorDetails.fields (e :: es))⟩
  | [] =>
    match r.name, r.population with
    | some nm, some (PyVal.vint p) =>
      let est := estimateFields u rates (effectiveCode r) p
      match updateFirstMatch nm (overwriteFields r.capital r.region p est r.flag t) st.1 with
      | some cur2 => Except.ok (cur2, st.2)
      | none =>
          Except.ok (st.1,
            st.2 ++ [⟨nm, r.capital, r.region, p, est.currency_code,
                      est.exchange_rate, est.estimated_gdp, r.flag, t⟩])
    | _, _ => Except.error ⟨500, "Internal server error", none⟩

/-- The refresh loop over the whole batch.  The index i numbers the
records so that each call of the estimator receives its own fresh
multiplier us i. -/
def refreshLoop (rates : RateTable) (t : Nat) (us : Nat → ℚ) :
    Nat → List Country × List Country → List RawCountry →
    Except ApiError (List Country × List Country)
  | _, st, [] => Except.ok st
  | i, st, r :: rs =>
    match refreshStep rates t (us i) st r with
    | Except.error e => Except.error e
    | Except.ok st2 => refreshLoop rates t us (i + 1) st2 rs

/-- The data rendered onto the summary raster: top 5 rows by estimated
gdp descending with null gdp excluded, the total row count, and the most
recent refresh timestamp. -/
structure SummaryData where
  top : List Country
  total : Nat
  lastRefresh : Option Nat
deriving DecidableEq, Repr

/-- Insert a row into a list kept sorted by estimated gdp descending. -/
def insertByGdp (c : Country) : List Country → List Country
  | [] => [c]
  | d :: ds =>
    if d.estimated_gdp.getD 0 ≤ c.estimated_gdp.getD 0 then c :: d :: ds
    else d :: insertByGdp c ds

/-- Sort rows by estimated gdp descending. -/
def sortByGdpDesc (l : List Country) : List Country :=
  l.foldr insertByGdp []

/-- The most recent last_refreshed_at across the store, none when the
store is empty. -/
def lastRefreshOf : List Country → Option Nat
  | [] => none
  | c :: cs =>
    match lastRefreshOf cs with
    | none => some c.last_refreshed_at
    | some m => some (max c.last_refreshed_at m)

/-- Result of the artifact generator: either a saved raster described by
its data, or a failure that was caught inside the generator and only
logged. -/
inductive ArtifactResult where
  | saved (d : SummaryData)
  | failedLogged (msg : String)
deriving DecidableEq, Repr

/-- generate_summary_image of src/main.py.  Any error raised while
rendering or persisting (modelled by the renderError parameter) is
caught by the except clause inside the function and turned into a log
line; the function has no error channel to its caller. -/
def generate_summary_image (store : List Country) (renderError : Option String) :
    ArtifactResult :=
  match renderError with
  | some e => ArtifactResult.failedLogged ("Error generating image: " ++ e)
  | none =>
      ArtifactResult.saved
        ⟨(sortByGdpDesc (store.filter fun c => c.estimated_gdp ≠ none)).take 5,
         store.length, lastRefreshOf store⟩

/-- Observable outcome of one POST /countries/refresh invocation: the
store after the transaction boundary, the HTTP response, and the
artifact attempt (none when the batch never committed). -/
structure RefreshOutput where
  store : List Country
  response : RefreshResponse
  artifact : Option ArtifactResult
deriving DecidableEq, Repr

/-- refresh_countries of src/main.py.  Both fetch outcomes, the stream
of random multipliers, the batch timestamp taken once, and any error of
the artifact generator are explicit parameters.  A fetch failure or a
validation failure rolls the session back, leaving the store exactly as
it was; on success the staged updates and inserts commit as one unit,
the artifact generation is attempted, and the response reports the
post-commit row count and the shared timestamp. -/
def refresh_countries (store : List Country)
    (countriesFetch : FetchResult (List RawCountry))
    (ratesFetch : FetchResult RateTable)
    (us : Nat → ℚ) (refresh_time : Nat) (artifactError : Option String) :
    RefreshOutput :=
  match fetch_countries countriesFetch with
  | Except.error e => ⟨store, RefreshResponse.err e, none⟩
  | Except.ok countries_data =>
    match fetch_exchange_rates ratesFetch with
    | Except.error e => ⟨store, RefreshResponse.err e, none⟩
    | Except.ok exchange_rates =>
      match refreshLoop exchange_rates refresh_time us 0 (store, []) countries_data with
      | Except.error e => ⟨store, RefreshResponse.err e, none⟩
      | Except.ok (cur, ins) =>
        let committed := cur ++ ins
        let art := generate_summary_image committed artifactError
        ⟨committed,
         RefreshResponse.ok ⟨"Countries refreshed successfully", committed.length, refresh_time⟩,
         some art⟩

/-- GET /countries/name: first ilike match in the store, none standing
for the 404 response. -/
def get_country (store : List Country) (nm : String) : Option Country :=
  store.find? (fun c => likeMatchStr nm c.name)

/-- Remove the first ilike match, none when no row matches. -/
def removeFirstMatch (nm : String) : List Country → Option (List Country)
  | [] => none
  | c :: cs =>
    if likeMatchStr nm c.name then some cs
    else
      match removeFirstMatch nm cs with
      | none => none
      | some cs2 => some (c :: cs2)

/-- DELETE /countries/name: the store after deleting the first ilike
match, none standing for the 404 response with the store unchanged. -/
def delete_country (store : List Country) (nm : String) : Option (List Country) :=
  removeFirstMatch nm store

/-- The data-model invariant on the derived fields of one row:
estimated gdp is present only when the exchange rate is present and
non-zero, or the row has no currency code at all, in which case the gdp
is exactly 0 and the rate is null. -/
def estOk (e : Estimated) : Bool :=
  match e.estimated_gdp with
  | none => true
  | some g =>
    (match e.exchange_rate with
     | some r => r != 0
     | none => false) ||
    (e.currency_code == none && g == 0 && e.exchange_rate == none)

/-- The invariant read off a stored row. -/
def countryInvariant (c : Country) : Bool :=
  estOk ⟨c.currency_code, c.exchange_rate, c.estimated_gdp⟩

/-- Any fuel above the combined length of pattern and string is enough:
a pattern that equals the string up to letter case always matches, with
or without wildcard characters in it, because a percent sign matches
itself and an underscore matches any single character. -/
theorem likeMatchFuel_of_caseEq :
    ∀ (p s : List Char) (f : Nat), p.length + s.length < f →
      p.map Char.toLower = s.map Char.toLower → likeMatchFuel f p s = true := by
  intro p
  induction p with
  | nil =>
    intro s f hf hm
    have hs : s = [] := by
      cases s with
      | nil => rfl
      | cons b bs => simp at hm
    subst hs
    cases f with
    | zero => omega
    | succ f => simp [likeMatchFuel]
  | cons a ps ih =>
    intro s f hf hm
    cases s with
    | nil => simp at hm
    | cons b bs =>
      simp only [List.map_cons, List.cons.injEq] at hm
      obtain ⟨hab, hm2⟩ := hm
      simp only [List.length_cons] at hf
      cases f with
      | zero => omega
      | succ f1 =>
        by_cases ha : a = '%'
        · cases f1 with
          | zero => omega
          | succ f2 =>
            have h1 : likeMatchFuel f2 ps bs = true := by
              apply ih
              · omega
              · exact hm2
            simp [likeMatchFuel, ha, h1]
        · have h1 : likeMatchFuel f1 ps bs = true := by
            apply ih
            · omega
            · exact hm2
          simp [likeMatchFuel, ha, h1, hab]

/-- A pattern that equals a stored name up to letter case matches it
under the ilike semantics. -/
theorem likeMatchStr_of_caseEq (a b : String) (h : nameCaseEq a b = true) :
    likeMatchStr a b = true := by
  have hm : a.data.map Char.toLower = b.data.map Char.toLower := by
    simpa [nameCaseEq] using h
  exact likeMatchFuel_of_caseEq a.data b.data _ (by omega) hm

/-- A record that passes validation has a non-empty name and a
non-negative integer population; the 500 branch of refreshStep is
therefore unreachable for it. -/
theorem validateRecord_shape (r : RawCountry) (h : validateRecord r = []) :
    ∃ nm p, r.name = some nm ∧ nm ≠ "" ∧
      r.population = some (PyVal.vint p) ∧ 0 ≤ p := by
  unfold validateRecord at h
  rw [List.append_eq_nil] at h
  obtain ⟨h1, h2⟩ := h
  have hn : pyFalsyName r.name = false := by
    cases hb : pyFalsyName r.name with
    | false => rfl
    | true => rw [hb] at h1; simp at h1
  have hp : populationError r.population = none := by
    cases hpe : populationError r.population with
    | none => rfl
    | some m => rw [hpe] at h2; simp at h2
  cases hname : r.name with
  | none => rw [hname] at hn; simp [pyFalsyName] at hn
  | some nm =>
    cases hpop : r.population with
    | none => rw [hpop] at hp; simp [populationError] at hp
    | some v =>
      cases v with
      | vother => rw [hpop] at hp; simp [populationError] at hp
      | vint p =>
        refine ⟨nm, p, rfl, ?_, rfl, ?_⟩
        · rw [hname] at hn
          simpa [pyFalsyName] using hn
        · rw [hpop] at hp
          simp [populationError] at hp
          omega

/-- If some stored row matches the pattern, the in-place update
succeeds. -/
theorem updateFirstMatch_isSome (nm : String) (f : Country → Country) :
    ∀ l : List Country, (∃ c ∈ l, likeMatchStr nm c.name = true) →
      ∃ l2, updateFirstMatch nm f l = some l2 := by
  intro l
  induction l with
  | nil => rintro ⟨c, hc, _⟩; simp at hc
  | cons c cs ih =>
    rintro ⟨d, hd, hmatch⟩
    by_cases hc : likeMatchStr nm c.name = true
    · exact ⟨f c :: cs, by simp [updateFirstMatch, hc]⟩
    · have hd2 : d ∈ cs := by
        cases List.mem_cons.mp hd with
        | inl h => exact absurd (h ▸ hmatch) hc
        | inr h => exact h
      obtain ⟨l2, hl2⟩ := ih ⟨d, hd2, hmatch⟩
      exact ⟨c :: l2, by simp [updateFirstMatch, hc, hl2]⟩

/-- An in-place update that does not touch the name column preserves the
list of stored names (hence also the row count). -/
theorem updateFirstMatch_map_name (nm : String) (f : Country → Country)
    (hf : ∀ c, (f c).name = c.name) :
    ∀ (l l2 : List Country), updateFirstMatch nm f l = some l2 →
      l2.map Country.name = l.map Country.name := by
  intro l
  induction l with
  | nil => intro l2 h; simp [updateFirstMatch] at h
  | cons c cs ih =>
    intro l2 h
    by_cases hc : likeMatchStr nm c.name = true
    · simp [updateFirstMatch, hc] at h
      subst h
      simp [hf]
    · simp [updateFirstMatch, hc] at h
      cases hrec : updateFirstMatch nm f cs with
      | none => rw [hrec] at h; simp at h
      | some cs2 =>
        rw [hrec] at h
        simp at h
        subst h
        simp [ih cs2 hrec]

/-- Every row of an updated store is either an untouched original row or
the image of some original row under the update. -/
theorem updateFirstMatch_mem (nm : String) (f : Country → Country) :
    ∀ (l l2 : List Country), updateFirstMatch nm f l = some l2 →
      ∀ x ∈ l2, x ∈ l ∨ ∃ c, x = f c := by
  intro l
  induction l with
  | nil => intro l2 h; simp [updateFirstMatch] at h
  | cons c cs ih =>
    intro l2 h x hx
    by_cases hc : likeMatchStr nm c.name = true
    · simp [updateFirstMatch, hc] at h
      subst h
      cases List.mem_cons.mp hx with
      | inl h1 => exact Or.inr ⟨c, h1⟩
      | inr h1 => exact Or.inl (List.mem_cons_of_mem _ h1)
    · simp [updateFirstMatch, hc] at h
      cases hrec : updateFirstMatch nm f cs with
      | none => rw [hrec] at h; simp at h
      | some cs2 =>
        rw [hrec] at h
        simp at h
        subst h
        cases List.mem_cons.mp hx with
        | inl h1 => exact Or.inl (h1 ▸ List.mem_cons_self c cs)
        | inr h1 =>
          cases ih cs2 hrec x h1 with
          | inl h2 => exact Or.inl (List.mem_cons_of_mem _ h2)
          | inr h2 => exact Or.inr h2

/-- A record with a non-empty collected error mapping makes the loop
iteration raise the 400 validation error carrying exactly that
mapping. -/
theorem refreshStep_err_of_invalid (rates : RateTable) (t : Nat) (u : ℚ)
    (st : List Country × List Country) (r : RawCountry) (e : String × String)
    (es : List (String × String)) (h : validateRecord r = e :: es) :
    refreshStep rates t u st r =
      Except.error ⟨400, "Validation failed", some (ErrorDetails.fields (e :: es))⟩ := by
  unfold refreshStep
  rw [h]

/-- The update branch of one loop iteration: a valid record whose name
pattern matches some committed row updates that row in place and stages
no insert. -/
theorem refreshStep_update (rates : RateTable) (t : Nat) (u : ℚ)
    (cur ins cur2 : List Country) (r : RawCountry) (nm : String) (p : Int)
    (hv : validateRecord r = []) (hnm : r.name = some nm)
    (hp : r.population = some (PyVal.vint p))
    (hu : updateFirstMatch nm
        (overwriteFields r.capital r.region p (estimateFields u rates (effectiveCode r) p) r.flag t)
        cur = some cur2) :
    refreshStep rates t u (cur, ins) r = Except.ok (cur2, ins) := by
  unfold refreshStep
  rw [hv, hnm, hp]
  simp only
  rw [hu]

/-- The insert branch of one loop iteration: a valid record with no
matching committed row stages a new row carrying the candidate fields
and the batch timestamp. -/
theorem refreshStep_insert (rates : RateTable) (t : Nat) (u : ℚ)
    (cur ins : List Country) (r : RawCountry) (nm : String) (p : Int)
    (hv : validateRecord r = []) (hnm : r.name = some nm)
    (hp : r.population = some (PyVal.vint p))
    (hu : updateFirstMatch nm
        (overwriteFields r.capital r.region p (estimateFields u rates (effectiveCode r) p) r.flag t)
        cur = none) :
    refreshStep rates t u (cur, ins) r =
      Except.ok (cur,
        ins ++ [⟨nm, r.capital, r.region, p,
          (estimateFields u rates (effectiveCode r) p).currency_code,
          (estimateFields u rates (effectiveCode r) p).exchange_rate,
          (estimateFields u rates (effectiveCode r) p).estimated_gdp, r.flag, t⟩]) := by
  unfold refreshStep
  rw [hv, hnm, hp]
  simp only
  rw [hu]

/-- A valid record never aborts the loop. -/
theorem refreshStep_ok_of_valid (rates : RateTable) (t : Nat) (u : ℚ)
    (cur ins : List Country) (r : RawCountry) (hv : validateRecord r = []) :
    ∃ st2, refreshStep rates t u (cur, ins) r = Except.ok st2 := by
  obtain ⟨nm, p, hnm, _, hp, _⟩ := validateRecord_shape r hv
  cases hu : updateFirstMatch nm
      (overwriteFields r.capital r.region p (estimateFields u rates (effectiveCode r) p) r.flag t)
      cur with
  | some cur2 => exact ⟨(cur2, ins), refreshStep_update rates t u cur ins cur2 r nm p hv hnm hp hu⟩
  | none => exact ⟨_, refreshStep_insert rates t u cur ins r nm p hv hnm hp hu⟩

/-- If the batch contains an invalid record then the loop aborts with
the 400 error of the first such record, whatever state the earlier valid
records had staged. -/
theorem refreshLoop_first_invalid (rates : RateTable) (t : Nat) (us : Nat → ℚ) :
    ∀ (cd : List RawCountry) (i : Nat) (st : List Country × List Country) (r0 : RawCountry),
      cd.find? (fun r => !(validateRecord r).isEmpty) = some r0 →
      refreshLoop rates t us i st cd =
        Except.error ⟨400, "Validation failed", some (ErrorDetails.fields (validateRecord r0))⟩ := by
  intro cd
  induction cd with
  | nil => intro i st r0 h; simp at h
  | cons r rs ih =>
    intro i st r0 h
    cases hv : validateRecord r with
    | nil =>
      have hfind : rs.find? (fun r => !(validateRecord r).isEmpty) = some r0 := by
        rw [List.find?_cons] at h
        simpa [hv] using h
      obtain ⟨st2, hstep⟩ := refreshStep_ok_of_valid rates t (us i) st.1 st.2 r hv
      have hstep2 : refreshStep rates t (us i) st r = Except.ok st2 := by
        rw [← hstep]
      simp only [refreshLoop, hstep2]
      exact ih (i + 1) st2 r0 hfind
    | cons e es =>
      have hr0 : r0 = r := by
        rw [List.find?_cons] at h
        simp [hv] at h
        exact h.symm
      subst hr0
      simp only [refreshLoop, refreshStep_err_of_invalid rates t (us i) st r0 e es hv, hv]

/-- The derived fields of every candidate satisfy the data-model
invariant: a present gdp comes either with a non-zero rate or, for the
no-currency branch, is exactly 0 with a null rate. -/
theorem estOk_estimateFields (u : ℚ) (rates : RateTable) (code : Option String) (p : Int) :
    estOk (estimateFields u rates code p) = true := by
  cases code with
  | none => simp [estimateFields, estOk]
  | some c =>
    cases hr : lookupRate rates c with
    | none => simp [estimateFields, hr, estOk]
    | some r =>
      by_cases hr0 : r = 0
      · simp [estimateFields, hr, estOk, calculate_gdp, hr0]
      · simp [estimateFields, hr, estOk, calculate_gdp, hr0]

/-- Rows of the post-loop session state are either rows that were in the
session state before, or freshly written rows: an in-place overwrite of
a committed row, or a staged insert, both carrying the batch timestamp
and derived fields of the candidate. -/
theorem refreshLoop_mem (rates : RateTable) (t : Nat) (us : Nat → ℚ)
    (P : Country → Prop)
    (hwrite : ∀ (capital region flag : Option String) (p : Int) (est : Estimated)
        (c : Country), estOk est = true → P (overwriteFields capital region p est flag t c))
    (hinsert : ∀ (nm : String) (capital region flag : Option String) (p : Int)
        (est : Estimated), estOk est = true →
        P ⟨nm, capital, region, p, est.currency_code, est.exchange_rate,
           est.estimated_gdp, flag, t⟩) :
    ∀ (cd : List RawCountry) (i : Nat) (cur ins cur2 ins2 : List Country),
      refreshLoop rates t us i (cur, ins) cd = Except.ok (cur2, ins2) →
      ∀ x ∈ cur2 ++ ins2, x ∈ cur ++ ins ∨ P x := by
  intro cd
  induction cd with
  | nil =>
    intro i cur ins cur2 ins2 h x hx
    simp [refreshLoop] at h
    obtain ⟨h1, h2⟩ := h
    subst h1; subst h2
    exact Or.inl hx
  | cons r rs ih =>
    intro i cur ins cur2 ins2 h x hx
    cases hv : validateRecord r with
    | cons e es =>
      rw [refreshLoop, refreshStep_err_of_invalid rates t (us i) (cur, ins) r e es hv] at h
      simp at h
    | nil =>
      obtain ⟨nm, p, hnm, _, hp, _⟩ := validateRecord_shape r hv
      have hest : estOk (estimateFields (us i) rates (effectiveCode r) p) = true :=
        estOk_estimateFields (us i) rates (effectiveCode r) p
      cases hu : updateFirstMatch nm
          (overwriteFields r.capital r.region p
            (estimateFields (us i) rates (effectiveCode r) p) r.flag t) cur with
      | some curU =>
        rw [refreshLoop, refreshStep_update rates t (us i) cur ins curU r nm p hv hnm hp hu] at h
        have hx2 := ih (i + 1) curU ins cur2 ins2 h x hx
        cases hx2 with
        | inr hP => exact Or.inr hP
        | inl hmem =>
          rw [List.mem_append] at hmem
          cases hmem with
          | inr hins => exact Or.inl (List.mem_append.mpr (Or.inr hins))
          | inl hcur =>
            cases updateFirstMatch_mem nm _ cur curU hu x hcur with
            | inl hold => exact Or.inl (List.mem_append.mpr (Or.inl hold))
            | inr hnew =>
              obtain ⟨c, hc⟩ := hnew
              exact Or.inr (hc ▸ hwrite r.capital r.region r.flag p _ c hest)
      | none =>
        rw [refreshLoop, refreshStep_insert rates t (us i) cur ins r nm p hv hnm hp hu] at h
        have hx2 := ih (i + 1) cur _ cur2 ins2 h x hx
        cases hx2 with
        | inr hP => exact Or.inr hP
        | inl hmem =>
          rw [List.mem_append] at hmem
          cases hmem with
          | inl hcur => exact Or.inl (List.mem_append.mpr (Or.inl hcur))
          | inr hins =>
            rw [List.mem_append] at hins
            cases hins with
            | inl hold => exact Or.inl (List.mem_append.mpr (Or.inr hold))
            | inr hnew =>
              rw [List.mem_singleton] at hnew
              exact Or.inr (hnew ▸ hinsert nm r.capital r.region r.flag p _ hest)

/-- A valid record whose name equals some committed name up to letter
case takes the update branch, and the list of committed names is
unchanged by it. -/
theorem refreshStep_names (rates : RateTable) (t : Nat) (u : ℚ)
    (cur ins : List Country) (r : RawCountry) (nm : String)
    (hv : validateRecord r = []) (hnm : r.name = some nm)
    (hex : ∃ s ∈ cur.map Country.name, nameCaseEq nm s = true) :
    ∃ cur2, refreshStep rates t u (cur, ins) r = Except.ok (cur2, ins) ∧
      cur2.map Country.name = cur.map Country.name := by
  obtain ⟨nm2, p, hnm2, _, hp, _⟩ := validateRecord_shape r hv
  obtain ⟨s, hs, hcase⟩ := hex
  rw [List.mem_map] at hs
  obtain ⟨c, hc, hcname⟩ := hs
  have hlike : likeMatchStr nm c.name = true := by
    rw [← hcname] at hcase
    exact likeMatchStr_of_caseEq nm c.name hcase
  obtain ⟨cur2, hu⟩ := updateFirstMatch_isSome nm
    (overwriteFields r.capital r.region p (estimateFields u rates (effectiveCode r) p) r.flag t)
    cur ⟨c, hc, hlike⟩
  refine ⟨cur2, refreshStep_update rates t u cur ins cur2 r nm p hv hnm hp hu, ?_⟩
  exact updateFirstMatch_map_name nm
    (overwriteFields r.capital r.region p (estimateFields u rates (effectiveCode r) p) r.flag t)
    (fun _ => rfl) cur cur2 hu

/-- When every record of the batch is valid and case-matches some
committed name, the loop only performs in-place updates: it succeeds,
stages no insert, and preserves the committed name list. -/
theorem refreshLoop_all_match (rates : RateTable) (t : Nat) (us : Nat → ℚ) (S : List String) :
    ∀ (cd : List RawCountry) (i : Nat) (cur ins : List Country),
      cur.map Country.name = S →
      (∀ r ∈ cd, validateRecord r = []) →
      (∀ r ∈ cd, ∀ nm, r.name = some nm → ∃ s ∈ S, nameCaseEq nm s = true) →
      ∃ cur2, refreshLoop rates t us i (cur, ins) cd = Except.ok (cur2, ins) ∧
        cur2.map Country.name = S := by
  intro cd
  induction cd with
  | nil =>
    intro i cur ins hS _ _
    exact ⟨cur, by simp [refreshLoop], hS⟩
  | cons r rs ih =>
    intro i cur ins hS hval hmatch
    have hv : validateRecord r = [] := hval r (List.mem_cons_self r rs)
    obtain ⟨nm, p, hnm, _, hp, _⟩ := validateRecord_shape r hv
    have hex : ∃ s ∈ cur.map Country.name, nameCaseEq nm s = true := by
      rw [hS]
      exact hmatch r (List.mem_cons_self r rs) nm hnm
    obtain ⟨cur2, hstep, hnames⟩ := refreshStep_names rates t (us i) cur ins r nm hv hnm hex
    obtain ⟨cur3, hloop, hnames3⟩ := ih (i + 1) cur2 ins (hnames.trans hS)
      (fun r2 h2 => hval r2 (List.mem_cons_of_mem _ h2))
      (fun r2 h2 => hmatch r2 (List.mem_cons_of_mem _ h2))
    exact ⟨cur3, by rw [refreshLoop, hstep]; exact hloop, hnames3⟩

/-- C1: if any record in a refresh batch fails validation, the refresh
commits zero records — the store is exactly as it was before the refresh
began, with no partial commit and no skipping of the bad record — and
the response is the 400 validation failure whose details carry the
field-to-message mapping of the first offending record. -/
theorem refresh_validation_aborts_batch (store : List Country) (cd : List RawCountry)
    (rates : RateTable) (us : Nat → ℚ) (t : Nat) (ae : Option String) (r0 : RawCountry)
    (hfind : cd.find? (fun r => !(validateRecord r).isEmpty) = some r0) :
    refresh_countries store (FetchResult.ok cd) (FetchResult.ok rates) us t ae =
      ⟨store, RefreshResponse.err
        ⟨400, "Validation failed", some (ErrorDetails.fields (validateRecord r0))⟩, none⟩ := by
  unfold refresh_countries fetch_countries fetch_exchange_rates
  simp only
  rw [refreshLoop_first_invalid rates t us cd 0 (store, []) r0 hfind]

/-- C5: a failing external fetch — timeout, non-2xx status or any other
transport error — leaves the store completely unchanged, skips the
artifact, and yields the uniform 503 source-unavailable error naming the
failing source and its endpoint URL; the underlying exception detail
carried by the failure never appears, since the outcome is the same
constant for every failure kind and detail string. -/
theorem refresh_source_failure_uniform (store : List Country)
    (cf : FetchResult (List RawCountry)) (rf : FetchResult RateTable)
    (us : Nat → ℚ) (t : Nat) (ae : Option String) :
    (cf.isOk = false →
      refresh_countries store cf rf us t ae =
        ⟨store, RefreshResponse.err ⟨503, "External data source unavailable",
          some (ErrorDetails.text
            ("Could not fetch data from RestCountries API (" ++ COUNTRIES_API ++ ")"))⟩,
         none⟩) ∧
    (∀ d : List RawCountry, cf = FetchResult.ok d → rf.isOk = false →
      refresh_countries store cf rf us t ae =
        ⟨store, RefreshResponse.err ⟨503, "External data source unavailable",
          some (ErrorDetails.text
            ("Could not fetch data from Exchange Rate API (" ++ EXCHANGE_API ++ ")"))⟩,
         none⟩) := by
  constructor
  · intro h
    cases cf with
    | ok d => simp [FetchResult.isOk] at h
    | timeout => rfl
    | statusError d => rfl
    | transportError d => rfl
  · intro d hcf h
    subst hcf
    cases rf with
    | ok d2 => simp [FetchResult.isOk] at h
    | timeout => rfl
    | statusError d2 => rfl
    | transportError d2 => rfl

/-- C9: an error raised while generating the summary artifact is caught
and discarded inside the generator — it becomes a logged value of the
artifact slot only — so the committed store and the HTTP response of the
refresh are identical to those of a run whose artifact generation
succeeds. -/
theorem artifact_error_isolated (store : List Country)
    (cf : FetchResult (List RawCountry)) (rf : FetchResult RateTable)
    (us : Nat → ℚ) (t : Nat) (e : String) :
    (refresh_countries store cf rf us t (some e)).store =
      (refresh_countries store cf rf us t none).store ∧
    (refresh_countries store cf rf us t (some e)).response =
      (refresh_countries store cf rf us t none).response ∧
    (∀ st2 : List Country, generate_summary_image st2 (some e) =
      ArtifactResult.failedLogged ("Error generating image: " ++ e)) := by
  refine ⟨?_, ?_, fun _ => rfl⟩ <;>
  · cases cf with
    | ok d =>
      cases rf with
      | ok d2 =>
        simp only [refresh_countries, fetch_countries, fetch_exchange_rates]
        cases h3 : refreshLoop d2 t us 0 (store, []) d with
        | error e2 => rfl
        | ok st2 =>
          obtain ⟨cur, ins⟩ := st2
          rfl
      | timeout => rfl
      | statusError d2 => rfl
      | transportError d2 => rfl
    | timeout => rfl
    | statusError d2 => rfl
    | transportError d2 => rfl

/-- Every row of the post-refresh store is either a pre-refresh row that
this refresh never touched, or a row written by this refresh: an
in-place overwrite of a committed row or a fresh insert, both carrying
the batch timestamp and derived candidate fields. -/
theorem refresh_store_mem (store : List Country) (cf : FetchResult (List RawCountry))
    (rf : FetchResult RateTable) (us : Nat → ℚ) (t : Nat) (ae : Option String)
    (P : Country → Prop)
    (hwrite : ∀ (capital region flag : Option String) (p : Int) (est : Estimated)
        (c : Country), estOk est = true → P (overwriteFields capital region p est flag t c))
    (hinsert : ∀ (nm : String) (capital region flag : Option String) (p : Int)
        (est : Estimated), estOk est = true →
        P ⟨nm, capital, region, p, est.currency_code, est.exchange_rate,
           est.estimated_gdp, flag, t⟩) :
    ∀ x ∈ (refresh_countries store cf rf us t ae).store, x ∈ store ∨ P x := by
  intro x hx
  cases cf with
  | timeout => exact Or.inl hx
  | statusError d => exact Or.inl hx
  | transportError d => exact Or.inl hx
  | ok d =>
    cases rf with
    | timeout => exact Or.inl hx
    | statusError d2 => exact Or.inl hx
    | transportError d2 => exact Or.inl hx
    | ok d2 =>
      simp only [refresh_countries, fetch_countries, fetch_exchange_rates] at hx
      cases h3 : refreshLoop d2 t us 0 (store, []) d with
      | error e2 =>
        rw [h3] at hx
        exact Or.inl hx
      | ok st2 =>
        obtain ⟨cur, ins⟩ := st2
        rw [h3] at hx
        have hx2 : x ∈ cur ++ ins := hx
        have := refreshLoop_mem d2 t us P hwrite hinsert d 0 store [] cur ins h3 x hx2
        simpa using this

/-- C7: reconciliation is a full replace, never a merge — the update
branch rewrites every mutable field of the matched row with the
candidate value (so a null candidate field overwrites a previously
non-null stored value), leaving only the name column as stored — and
every row touched by one refresh invocation, updated or inserted,
carries the one batch timestamp taken once before the loop. -/
theorem reconcile_full_replace_shared_timestamp :
    (∀ (capital region flag : Option String) (p : Int) (est : Estimated) (t : Nat)
       (c : Country),
      overwriteFields capital region p est flag t c =
        ⟨c.name, capital, region, p, est.currency_code, est.exchange_rate,
         est.estimated_gdp, flag, t⟩) ∧
    (∀ (store : List Country) (cf : FetchResult (List RawCountry))
       (rf : FetchResult RateTable) (us : Nat → ℚ) (t : Nat) (ae : Option String)
       (c : Country),
      c ∈ (refresh_countries store cf rf us t ae).store →
      c ∈ store ∨ c.last_refreshed_at = t) := by
  constructor
  · intro capital region flag p est t c
    rfl
  · intro store cf rf us t ae c hc
    exact refresh_store_mem store cf rf us t ae (fun c => c.last_refreshed_at = t)
      (fun _ _ _ _ _ _ _ => rfl) (fun _ _ _ _ _ _ _ => rfl) c hc

/-- C8: every row written by the pipeline satisfies the data-model
invariant — estimated gdp is present only when the exchange rate is
present and non-zero, or the row has no currency code at all, in which
case the gdp is exactly 0 and the rate is null; rows the refresh did not
touch are returned unchanged. -/
theorem written_records_satisfy_gdp_invariant (store : List Country)
    (cf : FetchResult (List RawCountry)) (rf : FetchResult RateTable)
    (us : Nat → ℚ) (t : Nat) (ae : Option String) (c : Country)
    (hc : c ∈ (refresh_countries store cf rf us t ae).store) :
    c ∈ store ∨ countryInvariant c = true := by
  refine refresh_store_mem store cf rf us t ae (fun c => countryInvariant c = true)
    ?_ ?_ c hc
  · intro capital region flag p est c0 hest
    exact hest
  · intro nm capital region flag p est hest
    exact hest

/-- C2 as stated is false on the code: for a currency whose rate is
exactly 0 the refresh stores the zero rate itself in exchange_rate, not
null — only estimated_gdp is null (and the code is retained).  Here the
rate table maps USD to 0 and the committed row carries exchange_rate
some 0, which is not none. -/
theorem zero_rate_stores_zero_not_null :
    (refresh_countries []
        (FetchResult.ok [⟨some "X", none, none, some (PyVal.vint 5), none, [⟨some "USD"⟩]⟩])
        (FetchResult.ok [("USD", 0)]) (fun _ => 1500) 7 none).store =
      [⟨"X", none, none, 5, some "USD", some 0, none, none, 7⟩] ∧
    ¬ ((⟨"X", none, none, 5, some "USD", some 0, none, none, 7⟩ : Country).exchange_rate
        = none) := by
  exact ⟨by decide, by decide⟩

/-- C2 (amended): for a currency code present in the table with a rate
of exactly 0, the estimator stores that zero rate (not null) in
exchange_rate, while estimated_gdp is null exactly as in the not-found
case, the currency code is retained, and calculate_gdp returns null for
a zero rate before any division can happen. -/
theorem estimator_zero_rate_amended (u : ℚ) (rates : RateTable) (c : String) (p : Int)
    (hr : lookupRate rates c = some 0) :
    estimateFields u rates (some c) p = ⟨some c, some 0, none⟩ ∧
    calculate_gdp u p (some 0) = none ∧
    (∀ rates2 : RateTable, lookupRate rates2 c = none →
      estimateFields u rates2 (some c) p = ⟨some c, none, none⟩) := by
  refine ⟨?_, by simp [calculate_gdp], ?_⟩
  · simp [estimateFields, hr, calculate_gdp]
  · intro rates2 h2
    simp [estimateFields, h2]

/-- C3 as stated is false on the code: the lookup is ilike pattern
matching on the candidate name, so a name containing a wildcard can
match — and reconciliation then updates — an earlier stored row that is
not equal to it even ignoring case.  The candidate C percent T equals
the stored name of the second row up to letter case, yet the refresh
updates the first row (population 3 and timestamp 99 land on it) and
leaves the case-equal second row untouched. -/
theorem reconcile_wildcard_updates_other_record :
    nameCaseEq "C%T" "c%t" = true ∧
    nameCaseEq "C%T" "Cat" = false ∧
    (refresh_countries
        [⟨"Cat", none, none, 1, none, none, some 0, none, 0⟩,
         ⟨"c%t", none, none, 2, none, none, some 0, none, 0⟩]
        (FetchResult.ok [⟨some "C%T", none, none, some (PyVal.vint 3), none, []⟩])
        (FetchResult.ok []) (fun _ => 1500) 99 none).store =
      [⟨"Cat", none, none, 3, none, none, some 0, none, 99⟩,
       ⟨"c%t", none, none, 2, none, none, some 0, none, 0⟩] := by
  exact ⟨by decide, by decide, by decide⟩

/-- C3 (amended): reconciliation updates, in place, the first stored
row whose name the candidate name matches as a case-insensitive LIKE
pattern; a stored name equal to the candidate name up to letter case
guarantees such a match exists (though with wildcard characters the row
updated may differ from the case-equal one), so no new row is inserted
and the stored name list — hence the record count — is unchanged, which
makes a re-run with identical source data leave the count unchanged. -/
theorem reconcile_update_no_insert (store : List Country) (cd : List RawCountry)
    (rates : RateTable) (us : Nat → ℚ) (t : Nat) (ae : Option String)
    (hval : ∀ r ∈ cd, validateRecord r = [])
    (hmatch : ∀ r ∈ cd, ∀ nm, r.name = some nm →
      ∃ s ∈ store.map Country.name, nameCaseEq nm s = true) :
    (refresh_countries store (FetchResult.ok cd) (FetchResult.ok rates) us t ae).store.map
        Country.name = store.map Country.name ∧
    (refresh_countries store (FetchResult.ok cd) (FetchResult.ok rates) us t ae).store.length
      = store.length := by
  obtain ⟨cur2, hloop, hnames⟩ := refreshLoop_all_match rates t us (store.map Country.name)
    cd 0 store [] rfl hval hmatch
  have hre : (refresh_countries store (FetchResult.ok cd) (FetchResult.ok rates) us t ae).store
      = cur2 ++ [] := by
    simp only [refresh_countries, fetch_countries, fetch_exchange_rates]
    rw [hloop]
  rw [hre]
  constructor
  · simpa using hnames
  · have hlen := congrArg List.length hnames
    simpa using hlen

/-- C4: for a candidate whose currency code resolves to a non-zero rate
the estimator stores estimated_gdp equal to population times the fresh
multiplier of this call divided by the rate — this is also the value the
update branch writes into the matched row — and the value is strictly
positive whenever the rate and the population are strictly positive. -/
theorem estimator_resolved_rate_formula (u r : ℚ) (rates : RateTable) (c : String) (p : Int)
    (hr : lookupRate rates c = some r) (hr0 : r ≠ 0) (hu1 : 1000 ≤ u) (_hu2 : u < 2000) :
    estimateFields u rates (some c) p = ⟨some c, some r, some ((p : ℚ) * u / r)⟩ ∧
    (∀ (capital region flag : Option String) (t : Nat) (c0 : Country),
      (overwriteFields capital region p (estimateFields u rates (some c) p) flag t
          c0).estimated_gdp = some ((p : ℚ) * u / r)) ∧
    (0 < r → 0 < p → 0 < (p : ℚ) * u / r) := by
  have h1 : estimateFields u rates (some c) p = ⟨some c, some r, some ((p : ℚ) * u / r)⟩ := by
    simp [estimateFields, hr, calculate_gdp, hr0]
  refine ⟨h1, ?_, ?_⟩
  · intro capital region flag t c0
    rw [h1]
    rfl
  · intro hrpos hppos
    have hu0 : (0 : ℚ) < u := lt_of_lt_of_le (by norm_num) hu1
    have hp0 : (0 : ℚ) < (p : ℚ) := by exact_mod_cast hppos
    exact div_pos (mul_pos hp0 hu0) hrpos

/-- C6: all field rules are evaluated before any failure is raised, so
the error mapping of a record that is both missing its name and has a
negative population carries both fields; the population rule uses three
distinct messages for a missing, a non-integer and a negative value,
with a negative population reported as must be a non-negative
integer. -/
theorem validate_collects_all_messages :
    (∀ (r : RawCountry) (p : Int), pyFalsyName r.name = true →
        r.population = some (PyVal.vint p) → p < 0 →
        validateRecord r =
          [("name", "is required"), ("population", "must be a non-negative integer")]) ∧
    (∀ r : RawCountry, r.population = none →
        (validateRecord r).lookup "population" = some "is required") ∧
    (∀ r : RawCountry, r.population = some PyVal.vother →
        (validateRecord r).lookup "population" = some "must be an integer") ∧
    (∀ (r : RawCountry) (p : Int), r.population = some (PyVal.vint p) → p < 0 →
        (validateRecord r).lookup "population" = some "must be a non-negative integer") ∧
    ("is required" ≠ "must be an integer") ∧
    ("is required" ≠ "must be a non-negative integer") ∧
    ("must be an integer" ≠ "must be a non-negative integer") := by
  refine ⟨?_, ?_, ?_, ?_, by decide, by decide, by decide⟩
  · intro r p hn hp hneg
    simp [validateRecord, hn, populationError, hp, hneg]
  · intro r hp
    cases hn : pyFalsyName r.name <;>
      simp [validateRecord, hn, populationError, hp, List.lookup]
  · intro r hp
    cases hn : pyFalsyName r.name <;>
      simp [validateRecord, hn, populationError, hp, List.lookup]
  · intro r p hp hneg
    cases hn : pyFalsyName r.name <;>
      simp [validateRecord, hn, populationError, hp, hneg, List.lookup]

/-- C10: the case-insensitive name lookup shared by reconciliation, the
single-record endpoint and the deletion endpoint is SQL LIKE pattern
matching, not equality ignoring case: the query C percent matches the
stored name Canada although the two are not equal even ignoring case,
the single-record lookup returns that row, deletion removes it, and a
refresh candidate named C percent updates it in place. -/
theorem ilike_is_pattern_matching :
    likeMatchStr "C%" "Canada" = true ∧
    nameCaseEq "C%" "Canada" = false ∧
    get_country [⟨"Canada", none, none, 1, none, none, some 0, none, 0⟩] "C%" =
      some ⟨"Canada", none, none, 1, none, none, some 0, none, 0⟩ ∧
    delete_country [⟨"Canada", none, none, 1, none, none, some 0, none, 0⟩] "C%" = some [] ∧
    (refresh_countries [⟨"Canada", none, none, 1, none, none, some 0, none, 0⟩]
        (FetchResult.ok [⟨some "C%", none, none, some (PyVal.vint 8), none, []⟩])
        (FetchResult.ok []) (fun _ => 1500) 5 none).store =
      [⟨"Canada", none, none, 8, none, none, some 0, none, 5⟩] := by
  exact ⟨by decide, by decide, by decide, by decide, by decide⟩

/-- Witness for C1 at a concrete input: a one-record batch whose record
is missing its name and has population minus five aborts the refresh
with the 400 error carrying both field messages, and the empty store
stays empty. -/
theorem refresh_validation_aborts_batch_witness :
    [(⟨none, none, none, some (PyVal.vint (-5)), none, []⟩ : RawCountry)].find?
        (fun r => !(validateRecord r).isEmpty) =
      some ⟨none, none, none, some (PyVal.vint (-5)), none, []⟩ ∧
    refresh_countries []
        (FetchResult.ok [⟨none, none, none, some (PyVal.vint (-5)), none, []⟩])
        (FetchResult.ok []) (fun _ => 1500) 3 none =
      ⟨[], RefreshResponse.err ⟨400, "Validation failed",
        some (ErrorDetails.fields [("name", "is required"),
          ("population", "must be a non-negative integer")])⟩, none⟩ := by
  constructor
  · decide
  · have h := refresh_validation_aborts_batch []
      [⟨none, none, none, some (PyVal.vint (-5)), none, []⟩] [] (fun _ => 1500) 3 none
      ⟨none, none, none, some (PyVal.vint (-5)), none, []⟩ (by decide)
    exact h.trans (by decide)

/-- Witness for the amended C2 at a concrete input: with USD mapped to
rate 0 the estimator keeps the code, stores the zero rate, and yields a
null gdp. -/
theorem estimator_zero_rate_amended_witness :
    lookupRate [("USD", 0)] "USD" = some 0 ∧
    estimateFields 1500 [("USD", 0)] (some "USD") 5 = ⟨some "USD", some 0, none⟩ :=
  ⟨by decide, (estimator_zero_rate_amended 1500 [("USD", 0)] "USD" 5 (by decide)).1⟩

/-- Witness for the amended C3 at a concrete input: a candidate named
CAT against a store holding cat updates in place, keeping the name list
and the count. -/
theorem reconcile_update_no_insert_witness :
    (refresh_countries [⟨"cat", none, none, 1, none, none, some 0, none, 0⟩]
        (FetchResult.ok [⟨some "CAT", none, none, some (PyVal.vint 2), none, []⟩])
        (FetchResult.ok []) (fun _ => 1500) 4 none).store.map Country.name = ["cat"] ∧
    (refresh_countries [⟨"cat", none, none, 1, none, none, some 0, none, 0⟩]
        (FetchResult.ok [⟨some "CAT", none, none, some (PyVal.vint 2), none, []⟩])
        (FetchResult.ok []) (fun _ => 1500) 4 none).store.length = 1 := by
  have h := reconcile_update_no_insert
    [⟨"cat", none, none, 1, none, none, some 0, none, 0⟩]
    [⟨some "CAT", none, none, some (PyVal.vint 2), none, []⟩]
    [] (fun _ => 1500) 4 none
    (by intro r hr; rw [List.mem_singleton] at hr; subst hr; decide)
    (by
      intro r hr nm hnm
      rw [List.mem_singleton] at hr
      subst hr
      have hn : nm = "CAT" := by
        simpa using hnm.symm
      subst hn
      exact ⟨"cat", by decide, by decide⟩)
  exact ⟨h.1.trans (by decide), h.2.trans (by decide)⟩

/-- Witness for C4 at a concrete input: population 2, multiplier 1500
and USD rate 4 give the formula value for the stored gdp. -/
theorem estimator_resolved_rate_formula_witness :
    lookupRate [("USD", 4)] "USD" = some 4 ∧ ((4 : ℚ) ≠ 0) ∧
    ((1000 : ℚ) ≤ 1500) ∧ ((1500 : ℚ) < 2000) ∧
    estimateFields 1500 [("USD", 4)] (some "USD") 2 =
      ⟨some "USD", some 4, some (((2 : Int) : ℚ) * 1500 / 4)⟩ :=
  ⟨by decide, by decide, by decide, by decide,
    (estimator_resolved_rate_formula 1500 4 [("USD", 4)] "USD" 2 (by decide) (by decide)
      (by decide) (by decide)).1⟩

/-- Witness for C5 at a concrete input: a timed-out countries fetch
leaves the store unchanged and yields the uniform 503 error naming the
RestCountries endpoint. -/
theorem refresh_source_failure_uniform_witness :
    (FetchResult.timeout : FetchResult (List RawCountry)).isOk = false ∧
    refresh_countries [] FetchResult.timeout (FetchResult.ok []) (fun _ => 1500) 1 none =
      ⟨[], RefreshResponse.err ⟨503, "External data source unavailable",
        some (ErrorDetails.text
          ("Could not fetch data from RestCountries API (" ++ COUNTRIES_API ++ ")"))⟩,
       none⟩ :=
  ⟨by decide, (refresh_source_failure_uniform [] FetchResult.timeout (FetchResult.ok [])
      (fun _ => 1500) 1 none).1 (by decide)⟩

/-- Witness for C6 at a concrete input: a record with no name and
population minus five reports both fields with the negative-population
message. -/
theorem validate_collects_all_messages_witness :
    pyFalsyName (none : Option String) = true ∧
    validateRecord ⟨none, none, none, some (PyVal.vint (-5)), none, []⟩ =
      [("name", "is required"), ("population", "must be a non-negative integer")] :=
  ⟨by decide, validate_collects_all_messages.1
      ⟨none, none, none, some (PyVal.vint (-5)), none, []⟩ (-5) (by decide) rfl (by decide)⟩

/-- Witness for C7 at a concrete input: the row inserted for candidate Z
is in the refreshed store and carries the batch timestamp 6. -/
theorem reconcile_full_replace_shared_timestamp_witness :
    (⟨"Z", none, none, 1, none, none, some 0, none, 6⟩ : Country) ∈
      (refresh_countries []
        (FetchResult.ok [⟨some "Z", none, none, some (PyVal.vint 1), none, []⟩])
        (FetchResult.ok []) (fun _ => 1500) 6 none).store ∧
    ((⟨"Z", none, none, 1, none, none, some 0, none, 6⟩ : Country) ∈ ([] : List Country) ∨
      (⟨"Z", none, none, 1, none, none, some 0, none, 6⟩ : Country).last_refreshed_at = 6) :=
  ⟨by decide, reconcile_full_replace_shared_timestamp.2 []
      (FetchResult.ok [⟨some "Z", none, none, some (PyVal.vint 1), none, []⟩])
      (FetchResult.ok []) (fun _ => 1500) 6 none
      ⟨"Z", none, none, 1, none, none, some 0, none, 6⟩ (by decide)⟩

/-- Witness for C8 at a concrete input: the currency-free candidate W is
written with gdp exactly 0 and null rate, satisfying the invariant. -/
theorem written_records_satisfy_gdp_invariant_witness :
    (⟨"W", none, none, 2, none, none, some 0, none, 9⟩ : Country) ∈
      (refresh_countries []
        (FetchResult.ok [⟨some "W", none, none, some (PyVal.vint 2), none, []⟩])
        (FetchResult.ok []) (fun _ => 1500) 9 none).store ∧
    ((⟨"W", none, none, 2, none, none, some 0, none, 9⟩ : Country) ∈ ([] : List Country) ∨
      countryInvariant ⟨"W", none, none, 2, none, none, some 0, none, 9⟩ = true) :=
  ⟨by decide, written_records_satisfy_gdp_invariant []
      (FetchResult.ok [⟨some "W", none, none, some (PyVal.vint 2), none, []⟩])
      (FetchResult.ok []) (fun _ => 1500) 9 none
      ⟨"W", none, none, 2, none, none, some 0, none, 9⟩ (by decide)⟩
